import Mathlib

/-!
Shallow embedding of `app/services/user_service.py` (class `UserService`
together with its pydantic schemas `UserCreate` / `UserUpdate` and the
`User` class declared in the same file), plus a spec-modelled `login`
operation for the lifecycle claim whose code lives outside `src/`.

Conventions of the embedding:
* Python exceptions are modelled explicitly: `PyErr` is the error value
  and `PyResult` the outcome of a block that may propagate an exception
  to its caller.
* The decisive source fact: `User` (lines 13-22) is a plain annotated
  class — neither SQLAlchemy-mapped nor pydantic — while the imports pin
  SQLAlchemy 1.4+ (`sqlalchemy.ext.asyncio`). Hence `select(User)` at
  line 50 raises `ArgumentError` already at query construction, `User.id`
  at line 95 raises `AttributeError` (bare annotations create no class
  attributes), and `User(**validated_data)` at line 72 would raise
  `TypeError`. Every awaited `get_user` call therefore raises before any
  query executes, and the persistence path of the service never runs.
* The `Session` record carries the persisted rows read by the
  spec-modelled persistence collaborator that `login` consults; the
  source service itself never manages to read or write a row.
* Python `while True:` loops are observed through a fuel parameter: a
  `none` result means the loop has not returned within that many
  iterations.
-/

/-- Python exception values relevant to the service code. -/
inductive PyErr where
  | validationError : PyErr
  | argumentError : PyErr
  | attributeError : PyErr
  | exception : PyErr
deriving DecidableEq, Repr

/-- The `User` class of `user_service.py` (lines 13-22): id, nickname,
email, hashed password, verification/lockout state, taken as the record
shape of an account. In the source it is a plain annotated class (not a
mapped model); the fields here serve the spec-modelled collaborator
state. `UUID` ids are modelled as `Nat`, datetimes as `Nat` ticks. -/
structure User where
  id : Nat
  nickname : String
  email : String
  hashed_password : String
  email_verified : Bool := false
  is_locked : Bool := false
  failed_login_attempts : Nat := 0
  last_login_at : Option Nat := none
  verification_token : Option String := none
deriving DecidableEq, Repr

/-- State of the persistence collaborator (spec section 6): persisted
rows in insertion order, a fresh-id counter, and a `dbError` flag for
the collaborator failure signal. The spec-modelled `login` reads it; the
source service itself never reaches a working query (see `get_user`). -/
structure Session where
  users : List User
  nextId : Nat
  dbError : Bool := false
deriving DecidableEq, Repr

/-- Input dict for `create_user`; the pydantic schema `UserCreate`
(lines 24-26) declares `email: str` and `password: str`, so extra keys
are ignored and only presence of the two fields is validated. -/
structure UserData where
  email : Option String
  password : Option String
deriving DecidableEq, Repr

/-- `UserCreate(**user_data)` (line 57): pydantic requires both `email`
and `password` to be present, raising `ValidationError` otherwise. Both
fields are plain `str`, so no email-format check is performed. -/
def userCreateValidate (d : UserData) : Except PyErr (String × String) :=
  match d.email, d.password with
  | some e, some p => Except.ok (e, p)
  | _, _ => Except.error PyErr.validationError

/-- Matches of the regex `[A-Z]` (line 132). -/
def isUpperAZ (c : Char) : Bool := decide ('A' ≤ c) && decide (c ≤ 'Z')

/-- Matches of the regex `[a-z]` (line 134). -/
def isLowerAZ (c : Char) : Bool := decide ('a' ≤ c) && decide (c ≤ 'z')

/-- Matches of the regex `\d` (line 136), restricted to ASCII digits. -/
def isDigit09 (c : Char) : Bool := decide ('0' ≤ c) && decide (c ≤ '9')

/-- The punctuation class of the regex on line 138, written by character
code to keep quotes and braces out of literals; the codes spell
`! @ # $ % ^ & * ( ) , . ? " : LBRACE RBRACE | < >`. -/
def passwordSymbols : List Char :=
  [33, 64, 35, 36, 37, 94, 38, 42, 40, 41, 44, 46, 63, 34, 58,
   123, 125, 124, 60, 62].map Char.ofNat

/-- Membership in the punctuation class of line 138. -/
def isPasswordSymbol (c : Char) : Bool := passwordSymbols.contains c

/-- `UserService.validate_password` (lines 127-140): length at least 8,
one uppercase, one lowercase, one digit, one symbol; checked in the
order of the source, returning `false` at the first violation. -/
def validate_password (password : String) : Bool :=
  if password.length < 8 then false
  else if !(password.data.any isUpperAZ) then false
  else if !(password.data.any isLowerAZ) then false
  else if !(password.data.any isDigit09) then false
  else if !(password.data.any isPasswordSymbol) then false
  else true

/-- `UserService.hash_password` (lines 123-125): `password[::-1]`, the
reversal of the plaintext. -/
def hash_password (password : String) : String :=
  String.mk password.data.reverse

/-- `UserService.get_user` (lines 48-52) as the staged source executes:
line 50 constructs `select(User).filter_by(**filters)`, and `User` is a
plain annotated class, not a SQLAlchemy-mapped entity, so SQLAlchemy
1.4+ (pinned by the `sqlalchemy.ext.asyncio` import) raises
`ArgumentError` already at query construction — before `filter_by`,
before `execute_query` and its try, and outside any try in `get_user`
itself. Every awaited call therefore raises; the declared
`Optional[User]` result is never produced, so the model gives a call its
denotation: the exception it raises. Neither the session nor the filters
influence that outcome. -/
def get_user (_s : Session) : PyErr :=
  PyErr.argumentError

/-- Modelled from the spec: the persistence collaborator lookup
`find_one(filter)` by email (spec section 6) consulted by the
spec-modelled `login` of spec section 4.2; `dbError` is the collaborator
failure signal, mapped to no result. The source `get_user` never
returns a row at all (see `get_user`). -/
def get_user_by_email (s : Session) (email : String) : Option User :=
  if s.dbError then none
  else s.users.find? (fun u => u.email == email)

/-- The truth value of the condition tested on line 116. The source
reads `if not cls.get_user(session, nickname=nickname)`, but
`generate_unique_nickname` is a plain (synchronous) method and
`get_user` is `async`, so the call is never awaited: the tested value is
a coroutine object — its body, and hence its `ArgumentError`, never runs
— and Python regards every coroutine object as truthy, whatever the
session holds. -/
def nickname_check_truthy (_s : Session) (_nickname : String) : Bool :=
  true

/-- `UserService.generate_unique_nickname` (lines 112-117): a
`while True:` loop drawing the candidate `cands k` at iteration `k` and
returning it when `taken` reports it unused; the loop has no retry cap,
so it is observed through `fuel`: `none` means the loop has not returned
within `fuel` iterations. Invoked directly, the `taken` argument is
`nickname_check_truthy s`, the value the source actually tests; the one
call site inside `create_user` (line 67) is unreachable (see
`create_user_try`). -/
def generate_unique_nickname (taken : String → Bool) (cands : Nat → String) :
    Nat → Nat → Option String
  | _, 0 => none
  | k, fuel + 1 =>
    if !(taken (cands k)) then some (cands k)
    else generate_unique_nickname taken cands (k + 1) fuel

/-- Outcome of a Python block that either returns a value or lets an
exception propagate. -/
inductive PyResult (α : Type) where
  | val : α → PyResult α
  | raised : PyErr → PyResult α
deriving DecidableEq, Repr

/-- The `try` block of `create_user` (lines 56-80): `UserCreate` field
validation may raise `ValidationError` (line 57); a weak password
returns `None` (lines 58-59); the duplicate check of line 62 then awaits
`get_user`, which raises `ArgumentError`, so lines 63-80 — the duplicate
branch, the nickname loop, `User(**validated_data)`, persist and notify
— never execute (nor could they: line 72 would raise `TypeError`, the
annotations-only class accepting no constructor arguments). The notifier
argument is carried for interface fidelity; no path invokes it. -/
def create_user_try (s : Session) (d : UserData)
    (_notifier : User → Except PyErr Unit) : PyResult (Option User) × Session :=
  match userCreateValidate d with
  | Except.error e => (PyResult.raised e, s)
  | Except.ok (_email, password) =>
    if !(validate_password password) then (PyResult.val none, s)
    else (PyResult.raised (get_user s), s)

/-- `UserService.create_user` (lines 54-86): the `except ValidationError`
and `except Exception` clauses (81-86) collapse any raise from the try
block to a returned `None`, the session left as the block left it; since
the try block either returns `None` itself or raises, every call returns
`None` and nothing is ever persisted. -/
def create_user (s : Session) (d : UserData)
    (notifier : User → Except PyErr Unit) : PyResult (Option User) × Session :=
  match create_user_try s d notifier with
  | (PyResult.raised _, s') => (PyResult.val none, s')
  | r => r

/-- Input dict for `update_user`; the pydantic schema `UserUpdate`
(lines 28-30) declares both fields `Optional[str]`, and
`dict(exclude_unset=True)` keeps only the supplied ones. -/
structure UserUpdateData where
  nickname : Option String
  password : Option String
deriving DecidableEq, Repr

/-- The `try` block of `update_user` (lines 90-97): `UserUpdate`
validation succeeds on typed input; a supplied password is re-hashed by
line 93 (pure string reversal, which does run, its result then
discarded); line 95 evaluates `update(User).where(User.id == user_id)`
and `User.id` raises `AttributeError` — bare annotations create no class
attribute — inside the try, before any strength check or row access. -/
def update_user_try (s : Session) (_id : Nat) (upd : UserUpdateData) :
    PyResult (Option User) × Session :=
  let _hashed := upd.password.map hash_password
  (PyResult.raised PyErr.attributeError, s)

/-- `UserService.update_user` (lines 88-100): the `except Exception`
clause (98-100) collapses the raise of line 95 to a returned `None`;
every call returns `None` and no row is ever read or written. -/
def update_user (s : Session) (id : Nat) (upd : UserUpdateData) :
    PyResult (Option User) × Session :=
  match update_user_try s id upd with
  | (PyResult.raised _, s') => (PyResult.val none, s')
  | r => r

/-- `UserService.delete_user` (lines 102-110): line 105 awaits
`get_user`, which raises `ArgumentError` (see `get_user`), and
`delete_user` has no try/except, so every call propagates the exception
to its caller and never returns a Bool. -/
def delete_user (s : Session) (_id : Nat) : PyResult Bool × Session :=
  (PyResult.raised (get_user s), s)

/-- Modelled from the spec: `verify_password(plaintext, hash)` is not
under `src/` (only the spec describes it); per spec section 4.1 it
compares the hash of the plaintext against the stored hash, with
`hash_password` as the hashing function the repository provides. -/
def verify_password (plaintext stored : String) : Bool :=
  hash_password plaintext == stored

/-- The row rewrite of the spec-level persistence collaborator used by
`login`: every row whose id matches is rewritten by `f`. -/
def update_by_id (users : List User) (id : Nat) (f : User → User) : List User :=
  users.map (fun u => if u.id == id then f u else u)

/-- Modelled from the spec: the `login(email, password)` operation of
the Account Lifecycle Manager is not under `src/` (only the tests call
`UserService.login_user`). Per spec section 4.2: no matching account →
fail; locked account → fail regardless of the password; wrong password →
increment `failed_login_attempts` and lock when the new count reaches
the threshold, then fail; correct password → reset the count to 0, set
`last_login_at`, and return the account. -/
def login (s : Session) (threshold : Nat) (email password : String)
    (now : Nat) : Option User × Session :=
  match get_user_by_email s email with
  | none => (none, s)
  | some u =>
    if u.is_locked then (none, s)
    else if verify_password password u.hashed_password then
      let f : User → User := fun v =>
        { v with failed_login_attempts := 0, last_login_at := some now }
      (some (f u), { s with users := update_by_id s.users u.id f })
    else
      let f : User → User := fun v =>
        { v with failed_login_attempts := v.failed_login_attempts + 1,
                 is_locked := decide (threshold ≤ v.failed_login_attempts + 1) }
      (none, { s with users := update_by_id s.users u.id f })

/-- A loop whose exit test never fires returns nothing, whatever the
fuel and wherever the candidate stream stands. -/
theorem generate_unique_nickname_eq_none (taken : String → Bool)
    (h : ∀ x, taken x = true) (cands : Nat → String) (k fuel : Nat) :
    generate_unique_nickname taken cands k fuel = none := by
  induction fuel generalizing k with
  | zero => rfl
  | succ n ih => simp [generate_unique_nickname, h, ih]

/-- After `update_by_id` at the id of the first row carrying a given
email, that row is rewritten by `f` and is still the first row carrying
the email, provided `f` keeps emails. -/
theorem find?_email_update_by_id (l : List User) (e : String) (i : Nat)
    (f : User → User) (hf : ∀ v, (f v).email = v.email) (u : User)
    (h : l.find? (fun v => v.email == e) = some u) (hui : u.id = i) :
    (update_by_id l i f).find? (fun v => v.email == e) = some (f u) := by
  induction l with
  | nil => simp at h
  | cons a t ih =>
    by_cases ha : (a.email == e) = true
    · rw [List.find?_cons_of_pos (p := fun v : User => v.email == e) t ha] at h
      injection h with h
      subst h
      have hai : (a.id == i) = true := by simp [hui]
      have hfa : ((f a).email == e) = true := by rw [hf]; exact ha
      simp only [update_by_id, List.map_cons, if_pos hai]
      rw [List.find?_cons_of_pos (p := fun v : User => v.email == e) _ hfa]
    · rw [List.find?_cons_of_neg (p := fun v : User => v.email == e) t ha] at h
      simp only [update_by_id, List.map_cons]
      by_cases hai : (a.id == i) = true
      · have hfa : ¬ ((f a).email == e) = true := by rw [hf]; exact ha
        rw [if_pos hai,
          List.find?_cons_of_neg (p := fun v : User => v.email == e) _ hfa]
        exact ih h
      · rw [if_neg hai,
          List.find?_cons_of_neg (p := fun v : User => v.email == e) _ ha]
        exact ih h

/-- Every `create_user` call returns `None` with the session untouched:
the try block either raises (field validation at line 57, or the
line 62 duplicate check whose awaited `get_user` raises) or returns
`None` for a weak password, and the `except` clauses collapse every
raise to `None`. -/
theorem create_user_val_none (s : Session) (d : UserData)
    (nf : User → Except PyErr Unit) :
    create_user s d nf = (PyResult.val none, s) := by
  cases d with
  | mk de dp =>
    cases de with
    | none => rfl
    | some e =>
      cases dp with
      | none => rfl
      | some p =>
        by_cases hv : validate_password p = true <;>
          simp [create_user, create_user_try, userCreateValidate, hv, get_user]

/-- C2: `validate_password` returns `true` exactly on passwords of
length at least 8 holding an uppercase letter, a lowercase letter, a
digit, and a symbol of the defined punctuation class, and `false` (never
raising — it is a total Boolean function) otherwise; in particular
"Password123!" passes and "password123" fails. -/
theorem C2_validate_password_strength :
    (∀ p : String, validate_password p = true ↔
      (8 ≤ p.length
        ∧ (∃ c ∈ p.data, isUpperAZ c = true)
        ∧ (∃ c ∈ p.data, isLowerAZ c = true)
        ∧ (∃ c ∈ p.data, isDigit09 c = true)
        ∧ (∃ c ∈ p.data, isPasswordSymbol c = true)))
    ∧ validate_password "Password123!" = true
    ∧ validate_password "password123" = false := by
  refine ⟨fun p => ?_, by decide, by decide⟩
  unfold validate_password
  split_ifs with h1 h2 h3 h4 h5 <;>
    simp_all [List.any_eq_true]

/-- C3: code bug — `hash_password` is plain string reversal, so the
stored credential is a reversible form of the plaintext: reversal is its
own inverse, giving a function that recovers the plaintext from every
stored hash, against the claim (and the spec) that no such function
exists. -/
theorem C3_hash_password_reversible :
    (∃ f : String → String, ∀ p : String, f (hash_password p) = p)
    ∧ hash_password "Password123!" = "!321drowssaP" := by
  refine ⟨⟨hash_password, fun p => ?_⟩, by decide⟩
  cases p with
  | mk data => simp [hash_password]

/-- C7: code bug — `generate_unique_nickname` has no retry cap, and the
condition it tests is the truthiness of an un-awaited coroutine, which
is always true: with the check the source actually evaluates, the loop
returns nothing no matter how many iterations it is granted, for every
session and every candidate stream. -/
theorem C7_generate_unique_nickname_never_returns
    (s : Session) (cands : Nat → String) (k fuel : Nat) :
    generate_unique_nickname (nickname_check_truthy s) cands k fuel = none :=
  generate_unique_nickname_eq_none (nickname_check_truthy s)
    (fun _ => rfl) cands k fuel

/-- C5: a create call whose email is malformed (the representative
"invalidemail", which the plain-`str` schema does not reject) or whose
required fields are missing returns `None`, even with a
policy-satisfying password. In the staged source the return is `None`
for every input: missing fields raise `ValidationError` at line 57, and
any other input reaches line 62 whose awaited `get_user` raises
`ArgumentError`, both caught by the `except` clauses; the email format
itself is never inspected. -/
theorem C5_malformed_input_returns_none (s : Session) (d : UserData)
    (nf : User → Except PyErr Unit)
    (_h : d.email = some "invalidemail" ∨ d.email = none ∨ d.password = none) :
    create_user s d nf = (PyResult.val none, s) :=
  create_user_val_none s d nf

/-- C5 witness: the malformed-email input with a strong password on an
empty database. -/
theorem C5_malformed_input_returns_none_witness :
    (({ email := some "invalidemail", password := some "ValidPassword123!" }
        : UserData).email = some "invalidemail"
      ∨ ({ email := some "invalidemail", password := some "ValidPassword123!" }
          : UserData).email = none
      ∨ ({ email := some "invalidemail", password := some "ValidPassword123!" }
          : UserData).password = none)
    ∧ create_user { users := [], nextId := 1, dbError := false }
        { email := some "invalidemail", password := some "ValidPassword123!" }
        (fun _ => Except.ok ())
      = (PyResult.val none, { users := [], nextId := 1, dbError := false }) :=
  ⟨Or.inl rfl,
    C5_malformed_input_returns_none
      { users := [], nextId := 1, dbError := false }
      { email := some "invalidemail", password := some "ValidPassword123!" }
      (fun _ => Except.ok ()) (Or.inl rfl)⟩

/-- C10: `create_user` is total at its public interface: for every input
dict and every notifier behaviour it returns a value — in fact `None` on
every input, the session untouched — and never propagates an exception:
each raise on its paths (`ValidationError` from field validation, the
`ArgumentError` the awaited `get_user` raises at line 62) is an
`Exception` caught by the clauses of lines 81-86, so the outcome is
never a propagated raise. -/
theorem C10_create_user_total (s : Session) (d : UserData)
    (nf : User → Except PyErr Unit) :
    ∃ o : Option User, create_user s d nf = (PyResult.val o, s) :=
  ⟨none, create_user_val_none s d nf⟩

/-- C8: code bug — the claimed scenario cannot occur: `create_user`
raises at the line 62 duplicate check before the persist block, so no
account is ever persisted and the notifier is never invoked (nor could
the block run: `User(**validated_data)` at line 72 raises `TypeError` on
the annotations-only class, and `session.add` rejects unmapped
instances). The result is thus independent of the notifier, and no call
ever returns a created account — against the claim (and spec sections
4.2 and 7, as the repository tests also expect) that a persisted account
survives a notifier failure and is returned with a warning. -/
theorem C8_notifier_never_reached (s : Session) (d : UserData)
    (nf nf' : User → Except PyErr Unit) :
    create_user s d nf = create_user s d nf'
    ∧ ∀ (u : User) (s' : Session),
        create_user s d nf ≠ (PyResult.val (some u), s') := by
  refine ⟨rfl, fun u s' h => ?_⟩
  rw [create_user_val_none s d nf] at h
  simp at h

/-- C6: code bug — `update_user` never re-validates a supplied password
and never stores anything: on every call line 95 evaluates `User.id` on
the unmapped, annotations-only class and raises `AttributeError` inside
the try, and the `except Exception` clause returns `None` with no row
touched. The claim (and spec section 4.2, as the repository tests also
expect) describes a working update that re-validates, re-hashes and
stores a valid new password and returns the updated record; the staged
code can update nothing. -/
theorem C6_update_always_none (s : Session) (i : Nat)
    (upd : UserUpdateData) :
    update_user s i upd = (PyResult.val none, s) := rfl

/-- C4: when an account under the given email already exists, a create
call with that same email fails — it returns `None` — and the session is
untouched, so exactly one account with that email persists afterwards.
In the staged source the failure is not produced by the duplicate lookup
of lines 62-64, which never completes: the awaited `get_user` raises
`ArgumentError` first and the `except Exception` clause returns `None`;
the observable behaviour the claim states holds all the same. -/
theorem C4_duplicate_email_rejected (s : Session) (d : UserData)
    (nf : User → Except PyErr Unit) (e : String)
    (_he : d.email = some e)
    (hc : s.users.countP (fun u => u.email == e) = 1) :
    create_user s d nf = (PyResult.val none, s)
    ∧ (create_user s d nf).2.users.countP (fun u => u.email == e) = 1 := by
  refine ⟨create_user_val_none s d nf, ?_⟩
  rw [create_user_val_none s d nf]
  exact hc

/-- C4 witness: the theorem at a one-account session and a request
reusing its email. -/
theorem C4_duplicate_email_rejected_witness :
    (({ email := some "dup@example.com", password := some "Password123!" }
        : UserData).email = some "dup@example.com"
      ∧ ({ users := [{ id := 1, nickname := "user_c4",
                       email := "dup@example.com", hashed_password := "x" }],
           nextId := 2, dbError := false } : Session).users.countP
            (fun u => u.email == "dup@example.com") = 1)
    ∧ (create_user
          { users := [{ id := 1, nickname := "user_c4",
                        email := "dup@example.com", hashed_password := "x" }],
            nextId := 2, dbError := false }
          { email := some "dup@example.com", password := some "Password123!" }
          (fun _ => Except.ok ())
        = (PyResult.val none,
           { users := [{ id := 1, nickname := "user_c4",
                         email := "dup@example.com", hashed_password := "x" }],
             nextId := 2, dbError := false })
       ∧ (create_user
            { users := [{ id := 1, nickname := "user_c4",
                          email := "dup@example.com", hashed_password := "x" }],
              nextId := 2, dbError := false }
            { email := some "dup@example.com", password := some "Password123!" }
            (fun _ => Except.ok ())).2.users.countP
            (fun u => u.email == "dup@example.com") = 1) :=
  ⟨⟨rfl, by decide⟩,
    C4_duplicate_email_rejected
      { users := [{ id := 1, nickname := "user_c4",
                    email := "dup@example.com", hashed_password := "x" }],
        nextId := 2, dbError := false }
      { email := some "dup@example.com", password := some "Password123!" }
      (fun _ => Except.ok ()) "dup@example.com" rfl (by decide)⟩

/-- C9: code bug — `delete_user` never returns a Bool: line 105 awaits
`get_user`, whose `select(User)` on the unmapped class raises
`ArgumentError`, and `delete_user` has no try/except, so every call —
whatever the id, whether or not an account exists — propagates the
exception. The claim (and the repository tests) say it returns `true`
exactly when an account existed and `false` otherwise. -/
theorem C9_delete_always_raises (s : Session) (i : Nat) :
    delete_user s i = (PyResult.raised PyErr.argumentError, s) := rfl

/-- C1 (spec-modelled `login`): on the account found under the email,
with healthy persistence — a locked account fails login untouched
whatever the password; an unlocked account with a non-verifying password
fails login and its stored row carries exactly one more failed attempt,
locking exactly when the new count reaches the threshold (default 5);
an unlocked account with a verifying password logs in, the returned and
stored record carrying `failed_login_attempts = 0` and `last_login_at`
set to the current time. -/
theorem C1_login_state_machine (s : Session) (th : Nat) (email pw : String)
    (now : Nat) (u : User) (hdb : s.dbError = false)
    (hu : get_user_by_email s email = some u) :
    (u.is_locked = true → login s th email pw now = (none, s))
    ∧ (u.is_locked = false → verify_password pw u.hashed_password = false →
        (login s th email pw now).1 = none
        ∧ get_user_by_email (login s th email pw now).2 email =
            some { u with
              failed_login_attempts := u.failed_login_attempts + 1,
              is_locked := decide (th ≤ u.failed_login_attempts + 1) })
    ∧ (u.is_locked = false → verify_password pw u.hashed_password = true →
        (login s th email pw now).1 =
            some { u with failed_login_attempts := 0,
                          last_login_at := some now }
        ∧ get_user_by_email (login s th email pw now).2 email =
            some { u with failed_login_attempts := 0,
                          last_login_at := some now }) := by
  have hfind : s.users.find? (fun v => v.email == email) = some u := by
    simpa [get_user_by_email, hdb] using hu
  refine ⟨fun hl => ?_, fun hl hv => ?_, fun hl hv => ?_⟩
  · simp [login, get_user_by_email, hdb, hfind, hl]
  · have hupd := find?_email_update_by_id s.users email u.id
      (fun v => { v with
        failed_login_attempts := v.failed_login_attempts + 1,
        is_locked := decide (th ≤ v.failed_login_attempts + 1) })
      (fun v => rfl) u hfind rfl
    exact ⟨by simp [login, get_user_by_email, hdb, hfind, hl, hv],
      by simp [login, get_user_by_email, hdb, hfind, hl, hv, hupd]⟩
  · have hupd := find?_email_update_by_id s.users email u.id
      (fun v => { v with failed_login_attempts := 0,
                         last_login_at := some now })
      (fun v => rfl) u hfind rfl
    exact ⟨by simp [login, get_user_by_email, hdb, hfind, hl, hv],
      by simp [login, get_user_by_email, hdb, hfind, hl, hv, hupd]⟩

/-- C1 witness: a correct-password login on an unlocked account with
three failed attempts, at threshold 5, resets the count and stamps
`last_login_at`. -/
theorem C1_login_state_machine_witness :
    (get_user_by_email
        { users := [{ id := 1, nickname := "user_c1", email := "c1@example.com",
                      hashed_password := "!321drowssaP",
                      failed_login_attempts := 3 }],
          nextId := 2, dbError := false } "c1@example.com"
      = some { id := 1, nickname := "user_c1", email := "c1@example.com",
               hashed_password := "!321drowssaP",
               failed_login_attempts := 3 })
    ∧ ((login { users := [{ id := 1, nickname := "user_c1",
                            email := "c1@example.com",
                            hashed_password := "!321drowssaP",
                            failed_login_attempts := 3 }],
                nextId := 2, dbError := false } 5
          "c1@example.com" "Password123!" 7).1 =
        some { id := 1, nickname := "user_c1", email := "c1@example.com",
               hashed_password := "!321drowssaP",
               failed_login_attempts := 0, last_login_at := some 7 }
       ∧ get_user_by_email
          (login { users := [{ id := 1, nickname := "user_c1",
                               email := "c1@example.com",
                               hashed_password := "!321drowssaP",
                               failed_login_attempts := 3 }],
                   nextId := 2, dbError := false } 5
            "c1@example.com" "Password123!" 7).2 "c1@example.com" =
        some { id := 1, nickname := "user_c1", email := "c1@example.com",
               hashed_password := "!321drowssaP",
               failed_login_attempts := 0, last_login_at := some 7 }) :=
  ⟨by decide,
    (C1_login_state_machine
      { users := [{ id := 1, nickname := "user_c1", email := "c1@example.com",
                    hashed_password := "!321drowssaP",
                    failed_login_attempts := 3 }],
        nextId := 2, dbError := false } 5 "c1@example.com" "Password123!" 7
      { id := 1, nickname := "user_c1", email := "c1@example.com",
        hashed_password := "!321drowssaP", failed_login_attempts := 3 }
      rfl (by decide)).2.2 rfl (by decide)⟩
